import Mathlib

/-!
# Verification of `suzi_poo.py` (learning-and-reply engine + reminder scheduler)

Shallow embedding of the core of `src/suzi_poo.py`: the conversation store
(settings + learned utterances), the reminder store and scheduler scan, the
tone transform, mention detection, and the main message handler.

Conventions of the embedding:
* Python `str` is Lean `String`; Python indexing/slicing is by code point,
  matched by `List Char` operations on `String.data`.
* Python's ASCII-relevant `str.upper`, `str.lower`, `str.strip`, `str.isupper`
  are modelled character-wise with `Char.toUpper`/`Char.toLower`/`String.trim`
  (the concrete strings in the program and in the claims are within this
  fragment).
* SQLite tables are Lean lists of row structures; `INSERT` appends,
  `DELETE ... WHERE id=?` filters, the settings table's `PRIMARY KEY` upsert
  replaces the conflicting row.  `TIMESTAMP` values are stored as their
  `isoformat()` strings and compared as SQLite compares `TEXT`
  (lexicographically), exactly as `get_due_reminders` does.
* A fallible external effect (SQLite insert failure, reminder delivery
  failure, the `markovify` sentence sampler) is given to the embedded function
  as an explicit argument, so every theorem quantifies over all of its
  possible outcomes.
-/

namespace SuziPoo

/-- Python `s[off:off+len]`: code-point slice with the usual clamping. -/
def pySlice (s : String) (off len : Nat) : String :=
  String.mk ((s.data.drop off).take len)

/-- Python `s[:n]`: code-point prefix with clamping. -/
def pyTake (n : Nat) (s : String) : String :=
  String.mk (s.data.take n)

/-- Python `s.lstrip("@")`: drop every leading `'@'`. -/
def pyLstripAt (s : String) : String :=
  String.mk (s.data.dropWhile (fun c => c == '@'))

/-- Python `s.lower()` on the ASCII fragment: character-wise `Char.toLower`. -/
def pyLower (s : String) : String :=
  String.mk (s.data.map Char.toLower)

/-- Python `s.upper()` on the ASCII fragment: character-wise `Char.toUpper`. -/
def pyUpper (s : String) : String :=
  String.mk (s.data.map Char.toUpper)

/-- Python `s.strip()` on the ASCII fragment: drop whitespace from both
ends. -/
def pyStrip (s : String) : String :=
  String.mk
    (((s.data.dropWhile Char.isWhitespace).reverse.dropWhile
        Char.isWhitespace).reverse)

/-- Python `s.isupper()` on the ASCII fragment: at least one cased (alphabetic)
character, and every cased character uppercase. -/
def pyIsUpper (s : String) : Bool :=
  s.data.any (fun c => c.isAlpha) && s.data.all (fun c => !c.isAlpha || c.isUpper)

/-- `apply_tone` (src/suzi_poo.py:196-202): under tone `"angry"`, strip the
text, answer `"HMM."` when nothing remains, otherwise uppercase it and append
`"!"`; any other tone (in particular `"kind"`) passes the text through. -/
def apply_tone (text tone : String) : String :=
  if tone = "angry" then
    let t := pyStrip text
    if t = "" then "HMM."
    else pyUpper t ++ "!"
  else text

/-- One row of the `settings` table (src/suzi_poo.py:86-93):
`chat_id INTEGER PRIMARY KEY, learn_enabled INTEGER DEFAULT 0,
tone TEXT DEFAULT 'kind', lang TEXT DEFAULT 'en'`. -/
structure SettingsRow where
  chat_id : Int
  learn_enabled : Int
  tone : String
  lang : String
deriving DecidableEq, Repr

/-- The `settings` table.  `chat_id` is the primary key, so a well-formed
table has at most one row per chat; the embedding never relies on that
invariant. -/
abbrev SettingsDB := List SettingsRow

/-- `SELECT ... FROM settings WHERE chat_id=?` returning the (unique) row. -/
def lookup_settings (db : SettingsDB) (cid : Int) : Option SettingsRow :=
  db.find? (fun r => r.chat_id = cid)

/-- `INSERT ... ON CONFLICT(chat_id) DO UPDATE` against the `settings`
table: replace the conflicting row when one exists, append otherwise. -/
def upsert_settings (db : SettingsDB) (row : SettingsRow) : SettingsDB :=
  if db.any (fun r => r.chat_id = row.chat_id) then
    db.map (fun r => if r.chat_id = row.chat_id then row else r)
  else
    db ++ [row]

/-- `is_learning_enabled` (src/suzi_poo.py:128-130): `bool(r and r[0][0] == 1)`
— the stored flag, or `false` when the chat has no settings row. -/
def is_learning_enabled (db : SettingsDB) (cid : Int) : Bool :=
  match lookup_settings db cid with
  | some r => r.learn_enabled = 1
  | none => false

/-- `get_setting` (src/suzi_poo.py:140-142): `SELECT {key} FROM settings WHERE
chat_id=?`, `rows[0][0] if rows else default`.  The source interpolates the
column name; the call sites only ever pass `"tone"` and `"lang"`, the two
columns modelled here. -/
def get_setting (db : SettingsDB) (cid : Int) (key : String)
    (default : String) : String :=
  match lookup_settings db cid with
  | none => default
  | some r => if key = "tone" then r.tone else if key = "lang" then r.lang
              else default

/-- `set_setting` (src/suzi_poo.py:144-164): read the existing
`(tone, lang, learn_enabled)` (defaults `("kind", "en", 0)` when the row is
absent), overwrite the addressed field, and upsert the full row. -/
def set_setting (db : SettingsDB) (cid : Int) (key val : String) : SettingsDB :=
  let existing :=
    match lookup_settings db cid with
    | some r => (r.tone, r.lang, r.learn_enabled)
    | none => ("kind", "en", (0 : Int))
  let tone := if key = "tone" then val else existing.1
  let lang := if key = "lang" then val else existing.2.1
  upsert_settings db ⟨cid, existing.2.2, tone, lang⟩

/-- One row of the `messages` table (src/suzi_poo.py:76-85), the learned
utterances.  `created_at` ordering is realised by list position: rows are
appended in arrival order, so "most recent first" is the reversed list. -/
structure MessageRow where
  chat_id : Int
  user_id : Int
  username : String
  text : String
deriving DecidableEq, Repr

/-- The outcome of the fallible SQLite `INSERT` behind `store_message`:
either the appended table, or the storage-layer exception. -/
def db_insert_message (fail : Bool) (msgs : List MessageRow)
    (row : MessageRow) : Except String (List MessageRow) :=
  if fail then .error "storage unavailable" else .ok (msgs ++ [row])

/-- `store_message` (src/suzi_poo.py:120-125): truncate the text to 4000
code points (`text[:4000]`) and insert; the `try/except` swallows any insert
failure (`fail` is the external failure outcome), leaving the table
unchanged and raising nothing to the caller. -/
def store_message (fail : Bool) (msgs : List MessageRow) (chat_id user_id : Int)
    (username text : String) : List MessageRow :=
  match db_insert_message fail msgs ⟨chat_id, user_id, username, pyTake 4000 text⟩ with
  | .ok m => m
  | .error _ => msgs

/-- One row of the `reminders` table (src/suzi_poo.py:94-102).  `remind_at`
holds the `datetime.isoformat()` string, exactly as `add_reminder` stores
it. -/
structure Reminder where
  id : Int
  chat_id : Int
  user_id : Int
  message : String
  remind_at : String
deriving DecidableEq, Repr

/-- `add_reminder` (src/suzi_poo.py:167-169): insert a row whose `remind_at`
is the isoformat string of the due instant. -/
def add_reminder (store : List Reminder) (next_id chat_id user_id : Int)
    (message remind_at : String) : List Reminder :=
  store ++ [⟨next_id, chat_id, user_id, message, remind_at⟩]

/-- `get_due_reminders` (src/suzi_poo.py:171-172): `SELECT ... WHERE
remind_at <= ?` — SQLite compares the stored isoformat `TEXT`
lexicographically with the probe's isoformat string. -/
def get_due_reminders (store : List Reminder) (before : String) : List Reminder :=
  store.filter (fun r => r.remind_at ≤ before)

/-- `delete_reminder` (src/suzi_poo.py:174-175): `DELETE FROM reminders
WHERE id=?`. -/
def delete_reminder (store : List Reminder) (rem_id : Int) : List Reminder :=
  store.filter (fun r => ¬ r.id = rem_id)

/-- `check_reminders` (src/suzi_poo.py:270-279): fetch the due reminders,
and for each one attempt a single delivery — `deliver` is the external
outcome of `app.bot.send_message`, whose failure the bare `except` swallows —
then delete the reminder whatever that outcome was.  Returns the resulting
store and the list of `(chat_id, text)` messages actually delivered. -/
def check_reminders (deliver : Int → Bool) (store : List Reminder)
    (now : String) : List Reminder × List (Int × String) :=
  let due := get_due_reminders store now
  due.foldl
    (fun acc r =>
      let sent :=
        if deliver r.id then
          acc.2 ++ [(r.chat_id, "\u00F0\u0178\u201D\u201D Reminder: " ++ r.message)]
        else acc.2
      (delete_reminder acc.1 r.id, sent))
    (store, [])

/-- One Telegram message entity as the handler reads it: `ent.type`,
`ent.offset`, `ent.length`, and `ent.user.id` when a resolved user is
attached (`none` when `ent.user` is absent). -/
structure MsgEntity where
  etype : String
  offset : Nat
  length : Nat
  userId : Option Int
deriving DecidableEq, Repr

/-- The fields of `update.message` that `message_handler` consumes: the raw
text, the entity list, and — when `msg.reply_to_message` and its `from_user`
both exist — the replied-to author's id. -/
structure Msg where
  text : String
  entities : List MsgEntity
  replyToAuthor : Option Int
deriving DecidableEq, Repr

/-- Mention detection (src/suzi_poo.py:440-451).  `text` is the stripped
message text the handler slices (`text[ent.offset:ent.offset+ent.length]`);
`botUsername` is lowercased on entry just as the handler lowercases
`get_me().username`.  A `"mention"` entity matches when its covered text,
after `lstrip("@").lower()`, equals the bot's username; a `"text_mention"`
entity matches on the bot's numeric id; a reply to a message authored by the
bot's id also counts. -/
def detect_mention (botUsername : String) (botId : Int) (text : String)
    (entities : List MsgEntity) (replyToAuthor : Option Int) : Bool :=
  let bu := pyLower botUsername
  (entities.any fun e =>
    (e.etype = "mention"
      && pyLower (pyLstripAt (pySlice text e.offset e.length)) = bu)
    || (e.etype = "text_mention" && e.userId = some botId))
  || replyToAuthor = some botId

/-- `MARKOV_LINES` (src/suzi_poo.py:62). -/
def MARKOV_LINES : Nat := 2000

/-- `build_markov` (src/suzi_poo.py:178-193), up to the statistical library:
fetch the newest `MARKOV_LINES` utterances of the chat (`ORDER BY created_at
DESC LIMIT` = reverse of arrival order, truncated), return the no-model
sentinel when there are no rows or the newline-joined corpus is
whitespace-only, and a model otherwise.  The cases the source also maps to
`None` — `markovify` not importable, or its constructor raising — are
delivery-environment outcomes outside the embedding; both lead the handler
into the same fallback branch as an exhausted sampler. -/
def build_markov (msgs : List MessageRow) (cid : Int) : Option Unit :=
  let rows := ((msgs.filter (fun r => r.chat_id = cid)).reverse).take MARKOV_LINES
  if rows.isEmpty then none
  else
    let text := String.intercalate "\n"
      ((rows.map (fun r => r.text)).filter (fun t => ¬ t = ""))
    if pyStrip text = "" then none else some ()

/-- The first truthy candidate among the sampler outcomes of the reply loop
(src/suzi_poo.py:459-466): each iteration's `make_sentence` either raises
(`none`, the `except: continue` path) or returns a candidate; a candidate is
used iff it is truthy, i.e. a nonempty string. -/
def first_good : List (Option String) → Option String
  | [] => none
  | none :: rest => first_good rest
  | some c :: rest => if c = "" then first_good rest else some c

/-- The per-language fallback greetings (src/suzi_poo.py:468-472), with
`fallbacks.get(lang, fallbacks["en"])` lookup semantics.  The non-English
literals are the exact code-point sequences of the source file. -/
def fallback_phrase (lang : String) : String :=
  if lang = "en" then "Hello! I am Suzi Poo. Ask me anything."
  else if lang = "ta" then "\u00E0\u00AE\u00B5\u00E0\u00AE\u00A3\u00E0\u00AE\u2022\u00E0\u00AF\u00E0\u00AE\u2022\u00E0\u00AE\u00AE\u00E0\u00AF! \u00E0\u00AE\u00A8\u00E0\u00AE\u00BE\u00E0\u00AE\u00A9\u00E0\u00AF Suzi Poo. \u00E0\u00AE\u2022\u00E0\u00AF\u2021\u00E0\u00AE\u00B3\u00E0\u00AF\u00E0\u00AE\u2122\u00E0\u00AF\u00E0\u00AE\u2022\u00E0\u00AE\u00B3\u00E0\u00AF."
  else if lang = "hi" then "\u00E0\u00A4\u00A8\u00E0\u00A4\u00AE\u00E0\u00A4\u00B8\u00E0\u00A5\u00E0\u00A4\u00A4\u00E0\u00A5\u2021! \u00E0\u00A4\u00AE\u00E0\u00A5\u02C6\u00E0\u00A4\u201A Suzi Poo \u00E0\u00A4\u00B9\u00E0\u00A5\u201A\u00E0\u00A4\u00E0\u00A5\u00A4 \u00E0\u00A4\u00AA\u00E0\u00A5\u201A\u00E0\u00A4\u203A\u00E0\u00A4\u00BF\u00E0\u00A4\u00E0\u00A5\u00A4"
  else "Hello! I am Suzi Poo. Ask me anything."

/-- The scolding reply of the shouting rule (src/suzi_poo.py:478), exact
code points of the source literal. -/
def calm_down_reply : String := "\u00F0\u0178\u02DC\u00A1 Calm down please!"

/-- The whole durable state the handler touches. -/
structure BotState where
  settings : SettingsDB
  messages : List MessageRow
  reminders : List Reminder
deriving DecidableEq, Repr

/-- `message_handler` (src/suzi_poo.py:424-479), for a message that has text
(`msg.text` empty models the `not msg.text` early return).  External
outcomes are explicit: `storeFail` is the SQLite insert outcome inside
`store_message`, `attempts` the successive `make_sentence` outcomes of the
reply loop (the handler consumes at most 6).  Returns the new state and the
list of texts sent with `reply_text`. -/
def message_handler (botUsername : String) (botId : Int) (storeFail : Bool)
    (attempts : List (Option String)) (st : BotState) (chat_id user_id : Int)
    (username : String) (userIsBot : Bool) (m : Msg) : BotState × List String :=
  if m.text = "" then (st, [])
  else
    let text := pyStrip m.text
    let msgs1 :=
      if is_learning_enabled st.settings chat_id && !userIsBot then
        store_message storeFail st.messages chat_id user_id username text
      else st.messages
    let mentioned := detect_mention botUsername botId text m.entities m.replyToAuthor
    if mentioned then
      let tone := get_setting st.settings chat_id "tone" "kind"
      let lang := get_setting st.settings chat_id "lang" "en"
      let reply :=
        match build_markov msgs1 chat_id with
        | some _ =>
            match first_good (attempts.take 6) with
            | some c => apply_tone c tone
            | none => apply_tone (fallback_phrase lang) tone
        | none => apply_tone (fallback_phrase lang) tone
      (⟨st.settings, msgs1, st.reminders⟩, [reply])
    else if pyIsUpper text && text.length > 3
        && get_setting st.settings chat_id "tone" "kind" = "angry" then
      (⟨st.settings, msgs1, st.reminders⟩, [calm_down_reply])
    else
      (⟨st.settings, msgs1, st.reminders⟩, [])

/-- One inbound message event with its external outcomes, for iterating the
handler. -/
structure Event where
  chat_id : Int
  user_id : Int
  username : String
  userIsBot : Bool
  msg : Msg
  storeFail : Bool
  attempts : List (Option String)
deriving Repr

/-- Fold `message_handler` over a stream of inbound events. -/
def process_messages (botUsername : String) (botId : Int) (st : BotState) :
    List Event → BotState
  | [] => st
  | e :: rest =>
      process_messages botUsername botId
        (message_handler botUsername botId e.storeFail e.attempts st e.chat_id
          e.user_id e.username e.userIsBot e.msg).1 rest

/-- Python `s.partition(c)` for a one-character separator, on the code-point
list: `(before, sep, after)` at the first occurrence, `(s, "", "")` when the
separator does not occur. -/
def splitAtChar (c : Char) : List Char → Option (List Char × List Char)
  | [] => none
  | d :: rest =>
      if d = c then some ([], rest)
      else
        match splitAtChar c rest with
        | some (l, r) => some (d :: l, r)
        | none => none

/-- Python `s.partition(c)` (single-character separator). -/
def pyPartitionChar (s : String) (c : Char) : String × String × String :=
  match splitAtChar c s.data with
  | some (l, r) => (String.mk l, String.mk [c], String.mk r)
  | none => (s, "", "")

/-- The usage reply of `/remind` (src/suzi_poo.py:352). -/
def usage_remind_reply : String := "Usage: /remind <YYYY-MM-DD HH:MM> | <message>"

/-- The datetime-parse-failure reply of `/remind` (src/suzi_poo.py:362). -/
def bad_datetime_reply : String := "Couldn't parse datetime. Use 'YYYY-MM-DD HH:MM'"

/-- `cmd_remind` (src/suzi_poo.py:349-365).  The two standard-library
datetime parsers — `datetime.fromisoformat` and
`datetime.strptime(..., "%Y-%m-%d %H:%M")` — are external collaborators,
passed in as functions returning the parsed instant's `isoformat()` string
(`none` models the `raise`).  Returns the resulting reminder store and the
replies sent. -/
def cmd_remind (parseIso parseYmdHm : String → Option String)
    (store : List Reminder) (next_id chat_id user_id : Int)
    (msgText : String) : List Reminder × List String :=
  let rest := pyStrip (pyPartitionChar msgText ' ').2.2
  if ¬ rest.data.any (fun d => d = '|') then
    (store, [usage_remind_reply])
  else
    let parts := pyPartitionChar rest '|'
    let when_part := pyStrip parts.1
    let msg := pyStrip parts.2.2
    let reply := fun (dt : String) => "Reminder set for " ++ dt ++ " (UTC assumed)."
    match parseIso when_part with
    | some dt =>
        (add_reminder store next_id chat_id user_id msg dt, [reply dt])
    | none =>
        match parseYmdHm when_part with
        | some dt =>
            (add_reminder store next_id chat_id user_id msg dt, [reply dt])
        | none => (store, [bad_datetime_reply])

end SuziPoo

open SuziPoo

/-- The store component of a scheduler scan is the fold of per-id deletions
over the due list, whatever the delivery outcomes were. -/
theorem check_reminders_fst (deliver : Int → Bool) (store : List Reminder)
    (now : String) :
    (check_reminders deliver store now).1 =
      (get_due_reminders store now).foldl
        (fun s r => delete_reminder s r.id) store := by
  unfold check_reminders
  generalize get_due_reminders store now = due
  suffices h : ∀ (acc : List Reminder × List (Int × String)),
      (due.foldl
        (fun acc r =>
          (delete_reminder acc.1 r.id,
           if deliver r.id then
             acc.2 ++ [(r.chat_id, "ðŸ”” Reminder: " ++ r.message)]
           else acc.2)) acc).1
        = due.foldl (fun s r => delete_reminder s r.id) acc.1 by
    exact h (store, [])
  induction due with
  | nil => intro acc; rfl
  | cons r rest ih => intro acc; exact ih _

/-- A reminder surviving the deletion fold was in the initial store and its
id differs from every due id. -/
theorem mem_foldl_delete {x : Reminder} :
    ∀ (due s0 : List Reminder),
      x ∈ due.foldl (fun s r => delete_reminder s r.id) s0 →
        x ∈ s0 ∧ ∀ r ∈ due, ¬ x.id = r.id := by
  intro due
  induction due with
  | nil => intro s0 h; exact ⟨h, by simp⟩
  | cons r rest ih =>
      intro s0 h
      obtain ⟨h1, h2⟩ := ih (delete_reminder s0 r.id) h
      rw [delete_reminder, List.mem_filter] at h1
      refine ⟨h1.1, ?_⟩
      intro r' hr'
      rcases List.mem_cons.mp hr' with rfl | hr'
      · simpa using h1.2
      · exact h2 r' hr'

/-- **C2.** For every reminder `r` and scan instant `t`: `r` is returned by
the due-reminders query iff `r.remind_at ≤ t` (a reminder strictly after `t`
is not returned); after a scan fires, every due reminder is removed from the
store regardless of the delivery outcomes (delivery errors swallowed), so a
repeated due-reminders query at the same instant returns nothing; and the
resulting store does not depend on the delivery outcomes at all. -/
theorem due_reminders_iff_and_unconditional_removal :
    (∀ (store : List Reminder) (t : String) (r : Reminder),
        r ∈ get_due_reminders store t ↔ r ∈ store ∧ r.remind_at ≤ t)
    ∧ (∀ (deliver : Int → Bool) (store : List Reminder) (t : String),
        get_due_reminders (check_reminders deliver store t).1 t = [])
    ∧ (∀ (d₁ d₂ : Int → Bool) (store : List Reminder) (t : String),
        (check_reminders d₁ store t).1 = (check_reminders d₂ store t).1) := by
  refine ⟨?_, ?_, ?_⟩
  · intro store t r
    simp [get_due_reminders, List.mem_filter]
  · intro deliver store t
    rw [check_reminders_fst]
    rw [get_due_reminders, List.filter_eq_nil_iff]
    intro x hx
    obtain ⟨hx1, hx2⟩ := mem_foldl_delete _ _ hx
    simp only [decide_eq_true_eq]
    intro hle
    have hxdue : x ∈ get_due_reminders store t := by
      rw [get_due_reminders, List.mem_filter]
      exact ⟨hx1, by simpa using hle⟩
    exact hx2 x hxdue rfl
  · intro d₁ d₂ store t
    rw [check_reminders_fst, check_reminders_fst]

/-- **C7.** `store_message` truncates the given text to at most 4000 code
points before storing, and any storage failure during the append is swallowed:
for every failure outcome the function totally returns either the unchanged
table (failure swallowed, nothing raised to the caller) or the table with the
single truncated row appended, and the stored text never exceeds 4000 code
points. -/
theorem store_message_truncates_and_swallows :
    (∀ (fail : Bool) (msgs : List MessageRow) (cid uid : Int) (un txt : String),
        store_message fail msgs cid uid un txt = msgs
        ∨ store_message fail msgs cid uid un txt
            = msgs ++ [⟨cid, uid, un, pyTake 4000 txt⟩])
    ∧ (∀ txt : String, (pyTake 4000 txt).length ≤ 4000) := by
  constructor
  · intro fail msgs cid uid un txt
    cases fail
    · right; rfl
    · left; rfl
  · intro txt
    show (txt.data.take 4000).length ≤ 4000
    exact List.length_take_le 4000 txt.data

/-- The tone currently stored for a chat, with the table's default. -/
def SuziPoo.stored_tone (db : SettingsDB) (cid : Int) : String :=
  match lookup_settings db cid with
  | some r => r.tone
  | none => "kind"

/-- The language currently stored for a chat, with the table's default. -/
def SuziPoo.stored_lang (db : SettingsDB) (cid : Int) : String :=
  match lookup_settings db cid with
  | some r => r.lang
  | none => "en"

/-- The learning flag currently stored for a chat, with the table's
default. -/
def SuziPoo.stored_le (db : SettingsDB) (cid : Int) : Int :=
  match lookup_settings db cid with
  | some r => r.learn_enabled
  | none => 0

/-- `set_setting` is the upsert of the read-modify-write row. -/
theorem set_setting_eq (db : SettingsDB) (cid : Int) (key val : String) :
    set_setting db cid key val =
      upsert_settings db
        ⟨cid, stored_le db cid,
         if key = "tone" then val else stored_tone db cid,
         if key = "lang" then val else stored_lang db cid⟩ := by
  cases h : lookup_settings db cid <;>
    simp [set_setting, stored_tone, stored_lang, stored_le, h]

/-- After replacing every row of the conflicting chat, the lookup finds the
new row. -/
theorem find_map_replace (row : SettingsRow) :
    ∀ db : List SettingsRow,
      db.any (fun r => r.chat_id = row.chat_id) = true →
        (db.map (fun r => if r.chat_id = row.chat_id then row else r)).find?
            (fun r => r.chat_id = row.chat_id) = some row := by
  intro db
  induction db with
  | nil => intro h; simp at h
  | cons a db ih =>
      intro h
      by_cases ha : a.chat_id = row.chat_id
      · simp [List.find?, ha]
      · simp only [List.any_cons, Bool.or_eq_true, decide_eq_true_eq] at h
        rcases h with h | h
        · exact absurd h ha
        · simp only [List.map_cons, if_neg ha, List.find?, decide_eq_false ha]
          exact ih h

/-- `find?` skips a prefix containing no match. -/
theorem find?_append_of_none {α : Type} {p : α → Bool} :
    ∀ (l₁ l₂ : List α), l₁.find? p = none →
      (l₁ ++ l₂).find? p = l₂.find? p := by
  intro l₁
  induction l₁ with
  | nil => intro l₂ _; rfl
  | cons a l₁ ih =>
      intro l₂ h
      rw [List.find?] at h
      cases hp : p a with
      | true => rw [hp] at h; exact absurd h (by simp)
      | false =>
          rw [hp] at h
          rw [List.cons_append, List.find?, hp]
          exact ih l₂ h

/-- Looking up the upserted chat yields exactly the upserted row. -/
theorem lookup_upsert_self (db : SettingsDB) (row : SettingsRow) :
    lookup_settings (upsert_settings db row) row.chat_id = some row := by
  unfold upsert_settings lookup_settings
  by_cases h : db.any (fun r => r.chat_id = row.chat_id) = true
  · rw [if_pos h]
    exact find_map_replace row db h
  · rw [if_neg h]
    rw [find?_append_of_none]
    · simp [List.find?]
    · rw [List.find?_eq_none]
      intro x hx
      simp only [Bool.not_eq_true] at h ⊢
      rw [List.any_eq_false] at h
      simpa using h x hx

/-- Looking up the chat after `set_setting` yields the read-modify-write
row. -/
theorem lookup_set_setting (db : SettingsDB) (cid : Int) (key val : String) :
    lookup_settings (set_setting db cid key val) cid =
      some ⟨cid, stored_le db cid,
            if key = "tone" then val else stored_tone db cid,
            if key = "lang" then val else stored_lang db cid⟩ := by
  rw [set_setting_eq]
  exact lookup_upsert_self db _

/-- **C3.** For every conversation id and value: after
`set_setting(id, "tone", v)`, `get_setting(id, "tone")` returns `v` (and
likewise for `"lang"`); setting the sibling key afterwards leaves the first
value unchanged, in both orders; and neither call changes the stored
`learn_enabled` flag — no cross-field clobber. -/
theorem set_setting_roundtrip_no_clobber :
    ∀ (db : SettingsDB) (cid : Int) (v w d : String),
      get_setting (set_setting db cid "tone" v) cid "tone" d = v
      ∧ get_setting (set_setting db cid "lang" w) cid "lang" d = w
      ∧ get_setting (set_setting (set_setting db cid "tone" v) cid "lang" w)
          cid "tone" d = v
      ∧ get_setting (set_setting (set_setting db cid "lang" w) cid "tone" v)
          cid "lang" d = w
      ∧ ∀ (k u : String),
          is_learning_enabled (set_setting db cid k u) cid
            = is_learning_enabled db cid := by
  intro db cid v w d
  refine ⟨?_, ?_, ?_, ?_, ?_⟩
  · rw [get_setting, lookup_set_setting]
    simp
  · rw [get_setting, lookup_set_setting]
    simp
  · rw [get_setting, lookup_set_setting]
    simp [stored_tone, lookup_set_setting]
  · rw [get_setting, lookup_set_setting]
    simp [stored_lang, lookup_set_setting]
  · intro k u
    rw [is_learning_enabled, lookup_set_setting]
    rw [is_learning_enabled]
    unfold stored_le
    cases lookup_settings db cid <;> simp

/-- Closed form of the angry branch of `apply_tone`, shared by the theorems
below. -/
theorem apply_tone_angry_eq (s : String) :
    apply_tone s "angry" =
      (if pyStrip s = "" then "HMM." else pyUpper (pyStrip s) ++ "!") := by
  simp only [apply_tone, if_pos rfl, if_true]

/-- **C10.** For every input text that is empty or consists only of whitespace,
`apply_tone` under tone `"angry"` returns the fixed string `"HMM."` rather than
the uppercase-plus-`"!"` transform of the input; non-whitespace input is
stripped of surrounding whitespace before being uppercased.  Stated as a
closed-form description of the angry branch, plus the two concrete witnesses
`"   "` (whitespace → `"HMM."`) and `" hi "` (stripped before uppercasing). -/
theorem apply_tone_angry_strip_and_hmm :
    (∀ s : String,
      apply_tone s "angry" =
        (if pyStrip s = "" then "HMM." else pyUpper (pyStrip s) ++ "!"))
    ∧ apply_tone "   " "angry" = "HMM."
    ∧ apply_tone " hi " "angry" = "HI!" := by
  exact ⟨apply_tone_angry_eq, by decide, by decide⟩

/-- **C4 (counterexample).** The claim "under tone `'angry'` the transform
returns the text uppercased with `'!'` appended" fails at the empty input:
the code returns `"HMM."`, not `pyUpper "" ++ "!" = "!"`. -/
theorem apply_tone_angry_not_plain_upper_bang :
    apply_tone "" "angry" ≠ pyUpper "" ++ "!" := by
  decide

/-- **C4 (amended).** For every input text: the tone transform under tone
`"kind"` returns the text unchanged (identity, hence idempotent), and under
tone `"angry"` it is deterministic, returning the *stripped* text uppercased
with `"!"` appended when the stripped text is nonempty, and the fixed string
`"HMM."` when the input is empty or whitespace-only. -/
theorem apply_tone_kind_id_angry_det :
    ∀ s : String,
      apply_tone s "kind" = s
      ∧ apply_tone (apply_tone s "kind") "kind" = apply_tone s "kind"
      ∧ apply_tone s "angry" =
          (if pyStrip s = "" then "HMM." else pyUpper (pyStrip s) ++ "!") := by
  intro s
  exact ⟨rfl, rfl, apply_tone_angry_eq s⟩

/-- **C1.** Mention detection operates only on mention-span boundaries.
Characterisation: a message is detected as addressed iff some `"mention"`
span's covered text — leading `"@"` stripped, case-insensitively — equals
the bot's username, or some `"text_mention"` span carries the bot's numeric
id, or the message replies to a message authored by the bot's id; otherwise
it is not addressed.  In particular the text `"asuzika"` containing the bot
username `"suzi"` as a substring with no covering span is not addressed,
while a `"mention"` span covering exactly `"@suzi"` is. -/
theorem detect_mention_span_boundaries :
    (∀ (bu : String) (bid : Int) (text : String) (ents : List MsgEntity)
        (rto : Option Int),
      detect_mention bu bid text ents rto = true ↔
        ((∃ e ∈ ents,
            (e.etype = "mention"
              ∧ pyLower (pyLstripAt (pySlice text e.offset e.length))
                  = pyLower bu)
            ∨ (e.etype = "text_mention" ∧ e.userId = some bid))
          ∨ rto = some bid))
    ∧ detect_mention "suzi" 99 "asuzika" [] none = false
    ∧ detect_mention "suzi" 99 "@suzi hello"
        [{ etype := "mention", offset := 0, length := 5, userId := none }]
        none = true := by
  refine ⟨?_, by decide, by decide⟩
  intro bu bid text ents rto
  simp [detect_mention, List.any_eq_true]

/-- The handler never writes the settings table. -/
theorem handler_settings_eq (bu : String) (bid : Int) (sf : Bool)
    (att : List (Option String)) (st : BotState) (cid uid : Int) (un : String)
    (ub : Bool) (m : Msg) :
    (message_handler bu bid sf att st cid uid un ub m).1.settings
      = st.settings := by
  unfold message_handler
  split
  · rfl
  · dsimp only
    split
    · rfl
    · split <;> rfl

/-- The handler never touches the reminder store. -/
theorem handler_reminders_eq (bu : String) (bid : Int) (sf : Bool)
    (att : List (Option String)) (st : BotState) (cid uid : Int) (un : String)
    (ub : Bool) (m : Msg) :
    (message_handler bu bid sf att st cid uid un ub m).1.reminders
      = st.reminders := by
  unfold message_handler
  split
  · rfl
  · dsimp only
    split
    · rfl
    · split <;> rfl

/-- The learning branch either leaves the utterance table unchanged or — only
with learning enabled — appends the single truncated row of this message. -/
theorem store_branch_cases (sf : Bool) (settings : SettingsDB)
    (msgs : List MessageRow) (cid uid : Int) (un : String) (ub : Bool)
    (t : String) :
    (if is_learning_enabled settings cid && !ub then
        store_message sf msgs cid uid un t
      else msgs) = msgs
    ∨ (is_learning_enabled settings cid = true
        ∧ (if is_learning_enabled settings cid && !ub then
              store_message sf msgs cid uid un t
            else msgs) = msgs ++ [⟨cid, uid, un, pyTake 4000 t⟩]) := by
  by_cases h : (is_learning_enabled settings cid && !ub) = true
  · cases sf
    · right
      refine ⟨(Bool.and_eq_true _ _).mp h |>.1, ?_⟩
      rw [if_pos h]
      rfl
    · left
      rw [if_pos h]
      rfl
  · left
    rw [if_neg h]

/-- What the handler leaves in the utterance table: unchanged, or — only with
learning enabled for this chat — one appended row of this chat. -/
theorem handler_messages_cases (bu : String) (bid : Int) (sf : Bool)
    (att : List (Option String)) (st : BotState) (cid uid : Int) (un : String)
    (ub : Bool) (m : Msg) :
    (message_handler bu bid sf att st cid uid un ub m).1.messages = st.messages
    ∨ (is_learning_enabled st.settings cid = true
        ∧ (message_handler bu bid sf att st cid uid un ub m).1.messages
            = st.messages
                ++ [⟨cid, uid, un, pyTake 4000 (pyStrip m.text)⟩]) := by
  have hb := store_branch_cases sf st.settings st.messages cid uid un ub
    (pyStrip m.text)
  unfold message_handler
  split
  · left; rfl
  · dsimp only
    split
    · exact hb
    · split <;> exact hb

/-- With learning disabled for chat `c`, a whole stream of handler steps
leaves chat `c`'s utterances untouched. -/
theorem process_filter_eq (bu : String) (bid : Int) (c : Int) :
    ∀ (events : List Event) (st : BotState),
      is_learning_enabled st.settings c = false →
        (process_messages bu bid st events).messages.filter
            (fun r => r.chat_id = c)
          = st.messages.filter (fun r => r.chat_id = c) := by
  intro events
  induction events with
  | nil => intro st _; rfl
  | cons e rest ih =>
      intro st h
      unfold process_messages
      have hset := handler_settings_eq bu bid e.storeFail e.attempts st
        e.chat_id e.user_id e.username e.userIsBot e.msg
      have h' : is_learning_enabled
          (message_handler bu bid e.storeFail e.attempts st e.chat_id
            e.user_id e.username e.userIsBot e.msg).1.settings c = false := by
        rw [hset]; exact h
      rw [ih _ h']
      rcases handler_messages_cases bu bid e.storeFail e.attempts st e.chat_id
        e.user_id e.username e.userIsBot e.msg with hc | ⟨hl, hc⟩
      · rw [hc]
      · by_cases hcc : e.chat_id = c
        · rw [hcc] at hl
          rw [hl] at h
          exact absurd h (by simp)
        · rw [hc, List.filter_append]
          simp [hcc]

/-- **C5.** For every conversation whose learning flag is false (including one
with no settings record, since absence defaults to false), processing any
number of incoming messages never appends an utterance to that conversation's
store. -/
theorem learning_disabled_never_appends (bu : String) (bid : Int)
    (st : BotState) (c : Int)
    (h : is_learning_enabled st.settings c = false) :
    (∀ events : List Event,
        (process_messages bu bid st events).messages.filter
            (fun r => r.chat_id = c)
          = st.messages.filter (fun r => r.chat_id = c))
    ∧ ∀ cid : Int, is_learning_enabled ([] : SettingsDB) cid = false := by
  refine ⟨fun events => process_filter_eq bu bid c events st h, fun _ => rfl⟩

/-- Witness for C5: a chat with no settings record receives two messages and
its utterance store stays empty. -/
theorem learning_disabled_never_appends_witness :
    is_learning_enabled (⟨[], [], []⟩ : BotState).settings 1 = false
    ∧ ((∀ events : List Event,
          (process_messages "suzi" 99 (⟨[], [], []⟩ : BotState)
              events).messages.filter (fun r => r.chat_id = 1)
            = (⟨[], [], []⟩ : BotState).messages.filter
                (fun r => r.chat_id = 1))
        ∧ ∀ cid : Int, is_learning_enabled ([] : SettingsDB) cid = false) :=
  ⟨rfl, learning_disabled_never_appends "suzi" 99 ⟨[], [], []⟩ 1 rfl⟩

/-- For a nonempty message, the handler's resulting utterance table is
exactly the learning branch's result. -/
theorem handler_messages_eq (bu : String) (bid : Int) (sf : Bool)
    (att : List (Option String)) (st : BotState) (cid uid : Int) (un : String)
    (ub : Bool) (m : Msg) (h0 : ¬ m.text = "") :
    (message_handler bu bid sf att st cid uid un ub m).1.messages
      = (if is_learning_enabled st.settings cid && !ub then
            store_message sf st.messages cid uid un (pyStrip m.text)
          else st.messages) := by
  unfold message_handler
  rw [if_neg h0]
  dsimp only
  split
  · rfl
  · split <;> rfl

/-- For a nonempty, addressed message the handler sends exactly the reply
computed by the generation pipeline over the post-learning corpus. -/
theorem handler_replies_mentioned (bu : String) (bid : Int) (sf : Bool)
    (att : List (Option String)) (st : BotState) (cid uid : Int) (un : String)
    (ub : Bool) (m : Msg) (h0 : ¬ m.text = "")
    (hm : detect_mention bu bid (pyStrip m.text) m.entities m.replyToAuthor
            = true) :
    (message_handler bu bid sf att st cid uid un ub m).2
      = [match build_markov
            (if is_learning_enabled st.settings cid && !ub then
                store_message sf st.messages cid uid un (pyStrip m.text)
              else st.messages) cid with
         | some _ =>
            (match first_good (att.take 6) with
             | some c => apply_tone c (get_setting st.settings cid "tone" "kind")
             | none =>
                apply_tone
                  (fallback_phrase (get_setting st.settings cid "lang" "en"))
                  (get_setting st.settings cid "tone" "kind"))
         | none =>
            apply_tone
              (fallback_phrase (get_setting st.settings cid "lang" "en"))
              (get_setting st.settings cid "tone" "kind")] := by
  unfold message_handler
  rw [if_neg h0]
  dsimp only
  rw [if_pos hm]

/-- **C6.** For every addressed message in a conversation with no learned
corpus (no model) or whose generation attempts are all exhausted, the reply is
the fixed fallback greeting for the conversation's stored language with the
tone transform applied; the tone transform under `"kind"` is the identity (so
with tone `"kind"` the fallback text is returned unmodified), and
`fallback_phrase` maps any stored value other than en/ta/hi to the English
greeting. -/
theorem addressed_no_corpus_fallback (bu : String) (bid : Int) (sf : Bool)
    (att : List (Option String)) (st : BotState) (cid uid : Int) (un : String)
    (ub : Bool) (m : Msg) (h0 : ¬ m.text = "")
    (hm : detect_mention bu bid (pyStrip m.text) m.entities m.replyToAuthor
            = true)
    (hex : build_markov
             (message_handler bu bid sf att st cid uid un ub m).1.messages cid
             = none
           ∨ first_good (att.take 6) = none) :
    (message_handler bu bid sf att st cid uid un ub m).2
      = [apply_tone (fallback_phrase (get_setting st.settings cid "lang" "en"))
          (get_setting st.settings cid "tone" "kind")]
    ∧ (∀ s : String, apply_tone s "kind" = s)
    ∧ (∀ l : String, ¬ l = "en" → ¬ l = "ta" → ¬ l = "hi" →
        fallback_phrase l = fallback_phrase "en") := by
  refine ⟨?_, fun s => rfl, ?_⟩
  · rw [handler_messages_eq bu bid sf att st cid uid un ub m h0] at hex
    rw [handler_replies_mentioned bu bid sf att st cid uid un ub m h0 hm]
    rcases hex with hbm | hfg
    · rw [hbm]
    · cases hb : build_markov
          (if is_learning_enabled st.settings cid && !ub then
              store_message sf st.messages cid uid un (pyStrip m.text)
            else st.messages) cid with
      | none => rfl
      | some u => rw [hfg]
  · intro l h1 h2 h3
    simp [fallback_phrase, h1, h2, h3]

/-- Witness for C6: empty corpus, kind tone, a proper `"@suzi"` mention span;
the handler answers with the unmodified English fallback greeting. -/
theorem addressed_no_corpus_fallback_witness :
    (message_handler "suzi" 99 false [] (⟨[], [], []⟩ : BotState) 1 2 "u" false
        ⟨"@suzi", [{ etype := "mention", offset := 0, length := 5,
                     userId := none }], none⟩).2
      = [apply_tone
          (fallback_phrase
            (get_setting (⟨[], [], []⟩ : BotState).settings 1 "lang" "en"))
          (get_setting (⟨[], [], []⟩ : BotState).settings 1 "tone" "kind")]
    ∧ (∀ s : String, apply_tone s "kind" = s)
    ∧ (∀ l : String, ¬ l = "en" → ¬ l = "ta" → ¬ l = "hi" →
        fallback_phrase l = fallback_phrase "en") :=
  addressed_no_corpus_fallback "suzi" 99 false [] ⟨[], [], []⟩ 1 2 "u" false
    ⟨"@suzi", [{ etype := "mention", offset := 0, length := 5,
                 userId := none }], none⟩
    (by decide) (by decide) (Or.inl (by decide))

/-- The handler sends at most one reply per incoming message: every branch
returns `[]` or a singleton. -/
theorem handler_replies_length_le_one (bu : String) (bid : Int) (sf : Bool)
    (att : List (Option String)) (st : BotState) (cid uid : Int) (un : String)
    (ub : Bool) (m : Msg) :
    ((message_handler bu bid sf att st cid uid un ub m).2).length ≤ 1 := by
  unfold message_handler
  split
  · simp
  · dsimp only
    split
    · simp
    · split <;> simp

/-- **C8.** For every incoming non-addressed message whose stripped text is
all-uppercase and longer than the minimum length (`len > 3`) in a conversation
with tone `"angry"`, the handler emits the fixed scolding reply and nothing
else; and — in general — at most one reply is produced per incoming message
(the addressed path, when taken, exits before this rule is evaluated). -/
theorem shouting_angry_scold (bu : String) (bid : Int) (sf : Bool)
    (att : List (Option String)) (st : BotState) (cid uid : Int) (un : String)
    (ub : Bool) (m : Msg) (h0 : ¬ m.text = "")
    (hnm : detect_mention bu bid (pyStrip m.text) m.entities m.replyToAuthor
             = false)
    (hup : pyIsUpper (pyStrip m.text) = true)
    (hlen : 3 < (pyStrip m.text).length)
    (htone : get_setting st.settings cid "tone" "kind" = "angry") :
    (message_handler bu bid sf att st cid uid un ub m).2 = [calm_down_reply]
    ∧ ∀ (bu' : String) (bid' : Int) (sf' : Bool) (att' : List (Option String))
        (st' : BotState) (cid' uid' : Int) (un' : String) (ub' : Bool)
        (m' : Msg),
        ((message_handler bu' bid' sf' att' st' cid' uid' un' ub' m').2).length
          ≤ 1 := by
  refine ⟨?_, fun bu' bid' sf' att' st' cid' uid' un' ub' m' =>
    handler_replies_length_le_one bu' bid' sf' att' st' cid' uid' un' ub' m'⟩
  unfold message_handler
  rw [if_neg h0]
  dsimp only
  rw [if_neg (by rw [hnm]; exact Bool.false_ne_true)]
  rw [if_pos (by simp [hup, hlen, htone])]

/-- Witness for C8: `"HELP ME"` in a chat whose tone is `"angry"`, no mention
spans, no reply reference — the scolding reply is emitted. -/
theorem shouting_angry_scold_witness :
    (message_handler "suzi" 99 false []
        (⟨[⟨1, 0, "angry", "en"⟩], [], []⟩ : BotState) 1 2 "u" false
        ⟨"HELP ME", [], none⟩).2 = [calm_down_reply]
    ∧ ∀ (bu' : String) (bid' : Int) (sf' : Bool) (att' : List (Option String))
        (st' : BotState) (cid' uid' : Int) (un' : String) (ub' : Bool)
        (m' : Msg),
        ((message_handler bu' bid' sf' att' st' cid' uid' un' ub' m').2).length
          ≤ 1 :=
  shouting_angry_scold "suzi" 99 false [] ⟨[⟨1, 0, "angry", "en"⟩], [], []⟩
    1 2 "u" false ⟨"HELP ME", [], none⟩
    (by decide) (by decide) (by decide) (by decide) (by decide)

/-- **C9.** For every reminder command whose timestamp part parses neither as
ISO-8601 nor as `YYYY-MM-DD HH:MM` — for any behaviour of those two external
parsers — or whose text lacks the `"|"` separator, a corrective usage message
is produced and the reminder store is not mutated. -/
theorem remind_parse_failure_no_mutation
    (parseIso parseYmdHm : String → Option String) (store : List Reminder)
    (next_id chat_id user_id : Int) (msgText : String)
    (h : ¬ ((pyStrip (pyPartitionChar msgText ' ').2.2).data.any
              (fun d => d = '|') = true)
         ∨ (parseIso (pyStrip (pyPartitionChar
              (pyStrip (pyPartitionChar msgText ' ').2.2) '|').1) = none
            ∧ parseYmdHm (pyStrip (pyPartitionChar
                (pyStrip (pyPartitionChar msgText ' ').2.2) '|').1) = none)) :
    (cmd_remind parseIso parseYmdHm store next_id chat_id user_id msgText).1
      = store
    ∧ ((cmd_remind parseIso parseYmdHm store next_id chat_id user_id
          msgText).2 = [usage_remind_reply]
       ∨ (cmd_remind parseIso parseYmdHm store next_id chat_id user_id
            msgText).2 = [bad_datetime_reply]) := by
  by_cases hp : ¬ ((pyStrip (pyPartitionChar msgText ' ').2.2).data.any
      (fun d => d = '|') = true)
  · unfold cmd_remind
    rw [if_pos hp]
    exact ⟨rfl, Or.inl rfl⟩
  · rcases h with h | ⟨hi, hy⟩
    · exact absurd h hp
    · unfold cmd_remind
      rw [if_neg hp]
      dsimp only
      rw [hi, hy]
      exact ⟨rfl, Or.inr rfl⟩

/-- Witness for C9: `/remind notadate | hi` with both parsers failing —
the corrective reply is sent and the (empty) store stays empty. -/
theorem remind_parse_failure_no_mutation_witness :
    (cmd_remind (fun _ => none) (fun _ => none) [] 7 1 2
        "/remind notadate | hi").1 = []
    ∧ ((cmd_remind (fun _ => none) (fun _ => none) [] 7 1 2
          "/remind notadate | hi").2 = [usage_remind_reply]
       ∨ (cmd_remind (fun _ => none) (fun _ => none) [] 7 1 2
            "/remind notadate | hi").2 = [bad_datetime_reply]) :=
  remind_parse_failure_no_mutation (fun _ => none) (fun _ => none) [] 7 1 2
    "/remind notadate | hi" (Or.inr ⟨rfl, rfl⟩)
